import Mathlib

/-!
Verification of the Deskulpt canvas rendering core.

This file gives a shallow embedding of the widget rendering core of the
Deskulpt repository and proves properties of it:

- the geometry engine (computeResizedGeometry in the WidgetContainer module,
  src/unnamed/part_010);
- the render preconditions of the two WidgetContainer revisions
  (src/unnamed/part_010 and
  src/packages/deskulpt-canvas/src/components/WidgetContainer.tsx);
- the widgets store, blob-URL registry and the three canvas event listeners
  (useUpdateWidgetCatalogListener, useRenderWidgetListener,
  useUpdateSettingsListener in src/packages/deskulpt-canvas/src/hooks).

JavaScript numbers that the code uses as pixel coordinates are modelled as
integers (the settings bindings document them as integer pixels).  Blob URLs
are modelled as indices into a registry list; revocations are recorded as a
list of revocation events so that revoke-exactly-once properties can be
counted.
-/

namespace Deskulpt

/-! ### Geometry engine (src/unnamed/part_010) -/

/-- The WidgetGeometry record from part_010: a bounding box in pixels. -/
structure WidgetGeometry where
  x : Int
  y : Int
  width : Int
  height : Int
deriving Repr, DecidableEq

/-- The NumberSize delta passed by re-resizable to the resize callbacks. -/
structure NumberSize where
  width : Int
  height : Int
deriving Repr, DecidableEq

/-- The eight resize directions of re-resizable. -/
inductive ResizeDirection where
  | top
  | right
  | bottom
  | left
  | topRight
  | bottomRight
  | bottomLeft
  | topLeft
deriving Repr, DecidableEq

/-- Direction manipulates the top edge. -/
def ResizeDirection.includesTop : ResizeDirection → Bool
  | .top | .topRight | .topLeft => true
  | _ => false

/-- Direction manipulates the left edge. -/
def ResizeDirection.includesLeft : ResizeDirection → Bool
  | .left | .bottomLeft | .topLeft => true
  | _ => false

/-- Translation of computeResizedGeometry from part_010.  The switch statement
assigns newY on top and topRight, newX on left and bottomLeft, and both on
topLeft; every other direction leaves x and y unchanged. -/
def computeResizedGeometry (geometry : WidgetGeometry) (direction : ResizeDirection)
    (delta : NumberSize) : WidgetGeometry :=
  let newWidth := geometry.width + delta.width
  let newHeight := geometry.height + delta.height
  match direction with
  | .top | .topRight =>
    { x := geometry.x, y := geometry.y - delta.height,
      width := newWidth, height := newHeight }
  | .left | .bottomLeft =>
    { x := geometry.x - delta.width, y := geometry.y,
      width := newWidth, height := newHeight }
  | .topLeft =>
    { x := geometry.x - delta.width, y := geometry.y - delta.height,
      width := newWidth, height := newHeight }
  | _ =>
    { x := geometry.x, y := geometry.y, width := newWidth, height := newHeight }

/-! ### Widget settings (deskulpt-bindings Settings revision with widgets map) -/

/-- The light/dark theme. -/
inductive Theme where
  | light
  | dark
deriving Repr, DecidableEq

/-- The canvas interaction mode. -/
inductive CanvasImode where
  | auto
  | sink
  | float
deriving Repr, DecidableEq

/-- Per-widget settings from the bindings: position, size, opacity, z-index
and the loaded flag. -/
structure WidgetSettings where
  x : Int
  y : Int
  width : Int
  height : Int
  opacity : Int
  zIndex : Int
  isLoaded : Bool
deriving Repr, DecidableEq

/-- Full application settings snapshot, as pushed by the backend on every
settings update event. -/
structure Settings where
  theme : Theme
  canvasImode : CanvasImode
  shortcuts : List (String × String)
  widgets : List (String × WidgetSettings)
deriving Repr, DecidableEq

/-! ### WidgetContainer render preconditions

The repository holds two revisions of the WidgetContainer component.  The
part_010 revision returns null when settings are undefined, the local
geometry state is undefined, or the isLoaded flag is false.  The packaged
revision (src/packages/deskulpt-canvas/src/components/WidgetContainer.tsx)
returns null only when the local geometry state or the opacity derived from
the settings entry is undefined; it does not consult isLoaded. -/

/-- Render decision of the part_010 WidgetContainer: the body renders unless
settings are undefined, geometry is undefined, or isLoaded is false. -/
def widgetContainerRenders (settings : Option WidgetSettings)
    (geometry : Option WidgetGeometry) : Bool :=
  match settings, geometry with
  | none, _ => false
  | _, none => false
  | some s, some _ => s.isLoaded

/-- Render decision of the packaged WidgetContainer.tsx revision: the body
renders unless geometry is undefined or opacity (hence the settings entry) is
undefined. -/
def widgetContainerRendersPkg (settings : Option WidgetSettings)
    (geometry : Option WidgetGeometry) : Bool :=
  let opacity := settings.map (fun s => s.opacity)
  match geometry, opacity with
  | none, _ => false
  | _, none => false
  | some _, some _ => true

/-! ### Blob URL registry

URL.createObjectURL and URL.revokeObjectURL are modelled by a registry whose
URLs are indices into the list of created blob contents.  Revocations append
to an event list so that each revocation is counted. -/

/-- The registry of created blob URLs (by content, indexed by creation order)
and the list of revocation events. -/
structure BlobRegistry where
  blobs : List String
  revoked : List Nat
deriving Repr, DecidableEq

/-- URL.createObjectURL: a fresh URL for the given content. -/
def createObjectURL (content : String) (reg : BlobRegistry) : Nat × BlobRegistry :=
  (reg.blobs.length, { reg with blobs := reg.blobs ++ [content] })

/-- URL.revokeObjectURL: record a revocation event for the URL. -/
def revokeObjectURL (u : Nat) (reg : BlobRegistry) : BlobRegistry :=
  { reg with revoked := reg.revoked ++ [u] }

/-- A URL is live when it has been created and never revoked. -/
def BlobRegistry.isLive (reg : BlobRegistry) (u : Nat) : Prop :=
  u < reg.blobs.length ∧ reg.revoked.count u = 0

instance (reg : BlobRegistry) (u : Nat) : Decidable (reg.isLive u) := by
  unfold BlobRegistry.isLive; infer_instance

/-! ### Widgets store (useWidgetsStore) -/

/-- The renderable component stored for a widget: either an ErrorDisplay
element or the default export of the loaded module.  Module default exports
are identified by an abstract string tag. -/
inductive Component where
  | errorDisplay (id : String) (error : String) (message : String)
  | defaultExport (d : String)
deriving Repr, DecidableEq

/-- One entry of the widgets store, per useWidgetsStore: the component, the
API-shim blob URL and the optional code-module blob URL. -/
structure WidgetState where
  component : Component
  apisBlobUrl : Nat
  moduleBlobUrl : Option Nat := none
deriving Repr, DecidableEq

/-- The canvas state: the widgets store (an association list in insertion
order, like a JS object), the blob URL registry and the settings store. -/
structure CanvasState where
  widgets : List (String × WidgetState)
  reg : BlobRegistry
  settings : Settings
deriving Repr, DecidableEq

/-- The zustand setState spread update: replace the entry in place when the
key exists, append it otherwise (JS object spread keeps key order and appends
new keys). -/
def setEntry (ws : List (String × WidgetState)) (id : String) (w : WidgetState) :
    List (String × WidgetState) :=
  if (ws.lookup id).isSome then
    ws.map fun e => if e.1 = id then (id, w) else e
  else
    ws ++ [(id, w)]

/-- The blob URLs held by one widgets store entry: the API-shim URL and the
code-module URL when present. -/
def handlesOf (w : WidgetState) : List Nat :=
  w.apisBlobUrl :: w.moduleBlobUrl.toList

/-- All blob URLs held by the widgets store, in store order. -/
def storeHandles : List (String × WidgetState) → List Nat
  | [] => []
  | e :: rest => handlesOf e.2 ++ storeHandles rest

/-- The code-module blob URL currently stored for a widget ID, if any. -/
def codeHandleOf (st : CanvasState) (id : String) : Option Nat :=
  (st.widgets.lookup id).bind fun w => w.moduleBlobUrl

/-- Well-formedness of a canvas state: the handles held by the store are
pairwise distinct, created, and unrevoked, and only created URLs have ever
been revoked. -/
def WF (st : CanvasState) : Prop :=
  (storeHandles st.widgets).Nodup ∧
  (∀ u ∈ storeHandles st.widgets, u < st.reg.blobs.length) ∧
  (∀ u ∈ storeHandles st.widgets, st.reg.revoked.count u = 0) ∧
  (∀ u ∈ st.reg.revoked, u < st.reg.blobs.length)

instance (st : CanvasState) : Decidable (WF st) := by
  unfold WF; infer_instance

/-! ### Event listeners (deskulpt-canvas hooks) -/

/-- The catalog-update listener (useUpdateWidgetCatalogListener): filter the
widgets store entries, revoking the blob URLs of every entry whose ID is
absent from the catalog payload; the store itself is rewritten only when some
entry was removed.  The payload is modelled by its key set, the only part the
listener reads. -/
def cleanupWidgets (payload : List String) :
    List (String × WidgetState) → BlobRegistry →
      List (String × WidgetState) × BlobRegistry
  | [], reg => ([], reg)
  | (id, w) :: rest, reg =>
    if payload.contains id then
      let (remaining, regRest) := cleanupWidgets payload rest reg
      ((id, w) :: remaining, regRest)
    else
      let reg1 := revokeObjectURL w.apisBlobUrl reg
      let reg2 :=
        match w.moduleBlobUrl with
        | some u => revokeObjectURL u reg1
        | none => reg1
      cleanupWidgets payload rest reg2

/-- The full catalog-update handler: clean up, then write the store only when
the remaining list is shorter than the original. -/
def onCatalogUpdate (payload : List String) (st : CanvasState) : CanvasState :=
  let cleaned := cleanupWidgets payload st.widgets st.reg
  if cleaned.1.length ≠ st.widgets.length then
    { st with widgets := cleaned.1, reg := cleaned.2 }
  else
    { st with reg := cleaned.2 }

/-- Whether the catalog-update handler invokes a store write (the condition
guarding setState in the listener). -/
def catalogUpdateWrites (payload : List String) (st : CanvasState) : Bool :=
  (cleanupWidgets payload st.widgets st.reg).1.length != st.widgets.length

/-- A sequence of catalog-update events applied in order. -/
def runCatalogEvents : List (List String) → CanvasState → CanvasState
  | [], st => st
  | p :: ps, st => runCatalogEvents ps (onCatalogUpdate p st)

/-- The settings-update listener (useUpdateSettingsListener): replace the
settings store value wholesale (zustand setState with the replace flag). -/
def onUpdateSettings (payload : Settings) (st : CanvasState) : CanvasState :=
  { st with settings := payload }

/-- The fixed values substituted into generated sources: the apisWrapper
template exposed by the window internals, the origin base URL and the raw
APIs resource URL. -/
structure RenderEnv where
  apisWrapper : String
  baseUrl : String
  rawApisUrl : String
deriving Repr, DecidableEq

/-- String rendering of a blob URL handle, as substituted into module code. -/
def blobUrlString (u : Nat) : String := "blob:" ++ toString u

/-- The API-shim source: the apisWrapper template with the widget ID and raw
APIs URL placeholders substituted (replaceAll). -/
def apisSource (env : RenderEnv) (id : String) : String :=
  (env.apisWrapper.replace "__DESKULPT_WIDGET_ID__" id).replace
    "__RAW_APIS_URL__" env.rawApisUrl

/-- The module source: the render-report code with the base URL and APIs blob
URL placeholders substituted (replaceAll). -/
def moduleSource (env : RenderEnv) (content : String) (apisBlobUrl : Nat) : String :=
  (content.replace "__DESKULPT_BASE_URL__" env.baseUrl).replace
    "__DESKULPT_APIS_BLOB_URL__" (blobUrlString apisBlobUrl)

/-- The payload of a render-widget event: bundled source text or a bundler
error message. -/
inductive RenderCode where
  | ok (content : String)
  | err (content : String)
deriving Repr, DecidableEq

/-- Outcome of the asynchronous dynamic import of module source: the default
export of the loaded module, or an error.  The error case covers both a throw
during the import and a module whose default export is undefined (the
listener turns the latter into a throw inside the same try block); the error
payload is the stringified error text. -/
inductive LoadResult where
  | ok (defaultExport : String)
  | err (e : String)
deriving Repr, DecidableEq

/-- Modelled from the spec: stringifyError from the deskulpt-utils package,
whose source file is not under src (only its callers are).  It renders a JS
error value as a string; since error values are already represented by their
string rendering in this embedding, it is the identity. -/
def stringifyError (e : String) : String := e

/-- The render-widget listener (useRenderWidgetListener): reuse the API-shim
blob URL when the widget is already tracked (revoking its old module blob
URL), create it otherwise; then store an ErrorDisplay entry on a bundling
error, or create a module blob URL, import it, and store either the default
export with the module URL, or (revoking the just-created module URL) an
ErrorDisplay entry on an import failure.  The dynamic import is modelled by
the load oracle, a function of the module source. -/
def onRenderWidget (env : RenderEnv) (load : String → LoadResult)
    (id : String) (code : RenderCode) (st : CanvasState) : CanvasState :=
  let (apisBlobUrl, reg1) :=
    match st.widgets.lookup id with
    | some w =>
      (w.apisBlobUrl,
        match w.moduleBlobUrl with
        | some u => revokeObjectURL u st.reg
        | none => st.reg)
    | none => createObjectURL (apisSource env id) st.reg
  match code with
  | .err msg =>
    { st with
      widgets := setEntry st.widgets id
        { component := .errorDisplay id "Error bundling the widget" msg,
          apisBlobUrl := apisBlobUrl, moduleBlobUrl := none },
      reg := reg1 }
  | .ok content =>
    let mcode := moduleSource env content apisBlobUrl
    let (moduleBlobUrl, reg2) := createObjectURL mcode reg1
    match load mcode with
    | .err e =>
      { st with
        widgets := setEntry st.widgets id
          { component := .errorDisplay id "Error importing the widget module"
              (stringifyError e),
            apisBlobUrl := apisBlobUrl, moduleBlobUrl := none },
        reg := revokeObjectURL moduleBlobUrl reg2 }
    | .ok d =>
      { st with
        widgets := setEntry st.widgets id
          { component := .defaultExport d,
            apisBlobUrl := apisBlobUrl, moduleBlobUrl := some moduleBlobUrl },
        reg := reg2 }

/-! ### Helper lemmas about the widgets store -/

theorem lookup_append_of_none {ws : List (String × WidgetState)} {id : String}
    {w : WidgetState} (h : ws.lookup id = none) :
    (ws ++ [(id, w)]).lookup id = some w := by
  rw [List.lookup_append, h]
  simp

theorem lookup_map_replace {ws : List (String × WidgetState)} {id : String}
    {w : WidgetState} (h : (ws.lookup id).isSome) :
    (ws.map fun e => if e.1 = id then (id, w) else e).lookup id = some w := by
  induction ws with
  | nil => simp at h
  | cons e rest ih =>
    obtain ⟨k, v⟩ := e
    by_cases hk : k = id
    · subst hk
      simp [List.lookup_cons_self]
    · have hbeq : (id == k) = false := by
        simp only [beq_eq_false_iff_ne]
        exact fun hc => hk hc.symm
      simp only [List.lookup_cons, hbeq] at h
      simp only [List.map_cons, hk, reduceIte, List.lookup_cons, hbeq]
      exact ih h

theorem lookup_setEntry_self (ws : List (String × WidgetState)) (id : String)
    (w : WidgetState) : (setEntry ws id w).lookup id = some w := by
  unfold setEntry
  by_cases h : (ws.lookup id).isSome
  · simp only [h, reduceIte]
    exact lookup_map_replace h
  · simp only [h, Bool.false_eq_true, reduceIte]
    exact lookup_append_of_none (Option.not_isSome_iff_eq_none.mp h)

theorem mem_of_lookup_some {ws : List (String × WidgetState)} {id : String}
    {w : WidgetState} (h : ws.lookup id = some w) : (id, w) ∈ ws := by
  induction ws with
  | nil => simp at h
  | cons e rest ih =>
    obtain ⟨k, v⟩ := e
    by_cases hk : id = k
    · subst hk
      rw [List.lookup_cons_self] at h
      obtain rfl := Option.some_injective _ h
      exact List.mem_cons_self _ _
    · have hbeq : (id == k) = false := by
        simp only [beq_eq_false_iff_ne]; exact hk
      simp only [List.lookup_cons, hbeq] at h
      exact List.mem_cons_of_mem _ (ih h)

theorem storeHandles_append (xs ys : List (String × WidgetState)) :
    storeHandles (xs ++ ys) = storeHandles xs ++ storeHandles ys := by
  induction xs with
  | nil => simp [storeHandles]
  | cons e rest ih => simp [storeHandles, ih]

theorem mem_storeHandles_of_mem {ws : List (String × WidgetState)}
    {e : String × WidgetState} (hm : e ∈ ws) {u : Nat} (hu : u ∈ handlesOf e.2) :
    u ∈ storeHandles ws := by
  induction ws with
  | nil => simp at hm
  | cons f rest ih =>
    rcases List.mem_cons.mp hm with h | h
    · subst h; simp [storeHandles, List.mem_append]; exact Or.inl hu
    · simp only [storeHandles, List.mem_append]; exact Or.inr (ih h)

theorem count_storeHandles_filter (u : Nat) (p : String × WidgetState → Bool)
    (ws : List (String × WidgetState)) :
    (storeHandles (ws.filter p)).count u +
      (storeHandles (ws.filter fun e => !p e)).count u =
    (storeHandles ws).count u := by
  induction ws with
  | nil => simp [storeHandles]
  | cons e rest ih =>
    by_cases hp : p e = true
    · simp [List.filter_cons, hp, storeHandles, List.count_append]
      omega
    · have hp2 : p e = false := by simpa using hp
      simp [List.filter_cons, hp2, storeHandles, List.count_append]
      omega

theorem nodup_handles_of_mem {ws : List (String × WidgetState)}
    {e : String × WidgetState} (hn : (storeHandles ws).Nodup) (hm : e ∈ ws) :
    (handlesOf e.2).Nodup := by
  induction ws with
  | nil => simp at hm
  | cons f rest ih =>
    simp only [storeHandles] at hn
    rcases List.mem_cons.mp hm with h | h
    · subst h; exact hn.of_append_left
    · exact ih hn.of_append_right h

/-! ### Catalog reconciliation -/

theorem cleanupWidgets_spec (p : List String) (ws : List (String × WidgetState))
    (reg : BlobRegistry) :
    cleanupWidgets p ws reg =
      (ws.filter fun e => p.contains e.1,
       ⟨reg.blobs, reg.revoked ++ storeHandles (ws.filter fun e => !p.contains e.1)⟩) := by
  induction ws generalizing reg with
  | nil => simp [cleanupWidgets, storeHandles]
  | cons e rest ih =>
    obtain ⟨id, w⟩ := e
    by_cases hp : id ∈ p
    · simp [cleanupWidgets, hp, ih, List.filter_cons]
    · cases hm : w.moduleBlobUrl <;>
        simp [cleanupWidgets, hp, ih, List.filter_cons, revokeObjectURL,
          storeHandles, handlesOf, hm]

theorem onCatalogUpdate_spec (p : List String) (st : CanvasState) :
    onCatalogUpdate p st =
      { widgets := st.widgets.filter fun e => p.contains e.1,
        reg := ⟨st.reg.blobs,
          st.reg.revoked ++ storeHandles (st.widgets.filter fun e => !p.contains e.1)⟩,
        settings := st.settings } := by
  unfold onCatalogUpdate
  rw [cleanupWidgets_spec]
  dsimp only
  by_cases h : (st.widgets.filter fun e => p.contains e.1).length = st.widgets.length
  · rw [if_neg (fun hne => hne h)]
    have heq : st.widgets.filter (fun e => p.contains e.1) = st.widgets :=
      (List.filter_sublist _).eq_of_length h
    rw [heq]
  · rw [if_pos h]

theorem mem_storeHandles_filter {ws : List (String × WidgetState)}
    {q : String × WidgetState → Bool} {u : Nat}
    (h : u ∈ storeHandles (ws.filter q)) : u ∈ storeHandles ws := by
  have h1 : 0 < (storeHandles (ws.filter q)).count u := List.count_pos_iff.mpr h
  have hpart := count_storeHandles_filter u q ws
  exact List.count_pos_iff.mp (by omega)

theorem count_storeHandles_filter_eq_one {ws : List (String × WidgetState)}
    (hnd : (storeHandles ws).Nodup) {q : String × WidgetState → Bool} {u : Nat}
    (hu : u ∈ storeHandles (ws.filter q)) :
    (storeHandles (ws.filter q)).count u = 1 := by
  have h1 := List.count_pos_iff.mpr hu
  have hpart := count_storeHandles_filter u q ws
  have hle := List.nodup_iff_count_le_one.mp hnd u
  omega

theorem WF_onCatalogUpdate (q : List String) (st : CanvasState) (h : WF st) :
    WF (onCatalogUpdate q st) := by
  obtain ⟨hnd, hal, hun, hra⟩ := h
  rw [onCatalogUpdate_spec]
  refine ⟨?_, ?_, ?_, ?_⟩ <;> dsimp only
  · rw [List.nodup_iff_count_le_one]
    intro u
    have hpart := count_storeHandles_filter u (fun e => q.contains e.1) st.widgets
    have hle := List.nodup_iff_count_le_one.mp hnd u
    omega
  · intro u hu
    exact hal u (mem_storeHandles_filter hu)
  · intro u hu
    rw [List.count_append]
    have h0 : st.reg.revoked.count u = 0 := hun u (mem_storeHandles_filter hu)
    have h1 := List.count_pos_iff.mpr hu
    have hpart := count_storeHandles_filter u (fun e => q.contains e.1) st.widgets
    have hle := List.nodup_iff_count_le_one.mp hnd u
    omega
  · intro u hu
    rcases List.mem_append.mp hu with h | h
    · exact hra u h
    · exact hal u (mem_storeHandles_filter h)

theorem runCatalogEvents_widgets (ps : List (List String)) (st : CanvasState) :
    (runCatalogEvents ps st).widgets =
      st.widgets.filter fun e => ps.all fun q => q.contains e.1 := by
  induction ps generalizing st with
  | nil => simp [runCatalogEvents]
  | cons q ps ih =>
    rw [runCatalogEvents, ih, onCatalogUpdate_spec]
    dsimp only
    rw [List.filter_filter]
    refine List.filter_congr fun e _ => ?_
    simp [List.all_cons, Bool.and_comm]

theorem runCatalogEvents_blobs (ps : List (List String)) (st : CanvasState) :
    (runCatalogEvents ps st).reg.blobs = st.reg.blobs := by
  induction ps generalizing st with
  | nil => rfl
  | cons q ps ih =>
    rw [runCatalogEvents, ih, onCatalogUpdate_spec]

theorem runCatalogEvents_count_untracked (ps : List (List String)) (st : CanvasState)
    (u : Nat) (hu : u ∉ storeHandles st.widgets) :
    (runCatalogEvents ps st).reg.revoked.count u = st.reg.revoked.count u := by
  induction ps generalizing st with
  | nil => rfl
  | cons q ps ih =>
    rw [runCatalogEvents]
    have hu1 : u ∉ storeHandles (onCatalogUpdate q st).widgets := by
      rw [onCatalogUpdate_spec]
      dsimp only
      exact fun hmem => hu (mem_storeHandles_filter hmem)
    rw [ih _ hu1, onCatalogUpdate_spec]
    dsimp only
    rw [List.count_append]
    have hz : (storeHandles (st.widgets.filter fun e => !q.contains e.1)).count u = 0 :=
      List.count_eq_zero.mpr fun hmem => hu (mem_storeHandles_filter hmem)
    omega

theorem runCatalogEvents_count_tracked (ps : List (List String)) (st : CanvasState)
    (hwf : WF st) (id : String) (w : WidgetState) (hm : (id, w) ∈ st.widgets)
    (u : Nat) (hu : u ∈ handlesOf w) :
    (runCatalogEvents ps st).reg.revoked.count u =
      st.reg.revoked.count u + (if ps.all fun q => q.contains id then 0 else 1) := by
  induction ps generalizing st with
  | nil => simp [runCatalogEvents]
  | cons q ps ih =>
    obtain ⟨hnd, hal, hun, hra⟩ := hwf
    rw [runCatalogEvents]
    by_cases hq : q.contains id = true
    · have hm1 : (id, w) ∈ (onCatalogUpdate q st).widgets := by
        rw [onCatalogUpdate_spec]
        exact List.mem_filter.mpr ⟨hm, hq⟩
      rw [ih (onCatalogUpdate q st) (WF_onCatalogUpdate q st ⟨hnd, hal, hun, hra⟩) hm1]
      have hkeep : u ∈ storeHandles (st.widgets.filter fun e => q.contains e.1) :=
        mem_storeHandles_of_mem (List.mem_filter.mpr ⟨hm, hq⟩) hu
      have h1 := List.count_pos_iff.mpr hkeep
      have hpart := count_storeHandles_filter u (fun e => q.contains e.1) st.widgets
      have hle := List.nodup_iff_count_le_one.mp hnd u
      rw [onCatalogUpdate_spec]
      dsimp only
      rw [List.count_append]
      have hall : (q :: ps).all (fun r => r.contains id) = ps.all fun r => r.contains id := by
        rw [List.all_cons, hq, Bool.true_and]
      rw [hall]
      omega
    · have hq2 : q.contains id = false := by simpa using hq
      have hm1 : (id, w) ∈ st.widgets.filter fun e => !q.contains e.1 :=
        List.mem_filter.mpr ⟨hm, by simpa using hq2⟩
      have humem : u ∈ storeHandles (st.widgets.filter fun e => !q.contains e.1) :=
        mem_storeHandles_of_mem hm1 hu
      have hone := count_storeHandles_filter_eq_one hnd humem
      have hnotin : u ∉ storeHandles (onCatalogUpdate q st).widgets := by
        rw [onCatalogUpdate_spec]
        dsimp only
        intro hmem
        have h1 := List.count_pos_iff.mpr hmem
        have hpart := count_storeHandles_filter u (fun e => q.contains e.1) st.widgets
        have hle := List.nodup_iff_count_le_one.mp hnd u
        omega
      rw [runCatalogEvents_count_untracked ps _ u hnotin, onCatalogUpdate_spec]
      dsimp only
      rw [List.count_append, hone]
      have hall : (q :: ps).all (fun r => r.contains id) = false := by
        rw [List.all_cons, hq2, Bool.false_and]
      rw [hall]
      simp

/-! ### Render listener step characterizations -/

theorem onRenderWidget_errcode_fresh (env : RenderEnv) (load : String → LoadResult)
    (id msg : String) (st : CanvasState) (h : st.widgets.lookup id = none) :
    onRenderWidget env load id (.err msg) st =
      { st with
        widgets := st.widgets ++
          [(id, ⟨.errorDisplay id "Error bundling the widget" msg,
                 st.reg.blobs.length, none⟩)],
        reg := { st.reg with blobs := st.reg.blobs ++ [apisSource env id] } } := by
  unfold onRenderWidget
  rw [h]
  simp [createObjectURL, setEntry, h]

theorem onRenderWidget_errcode_existing (env : RenderEnv) (load : String → LoadResult)
    (id msg : String) (st : CanvasState) (w0 : WidgetState)
    (h : st.widgets.lookup id = some w0) :
    onRenderWidget env load id (.err msg) st =
      { st with
        widgets := setEntry st.widgets id
          ⟨.errorDisplay id "Error bundling the widget" msg, w0.apisBlobUrl, none⟩,
        reg := { st.reg with
          revoked := st.reg.revoked ++ w0.moduleBlobUrl.toList } } := by
  unfold onRenderWidget
  rw [h]
  cases hm : w0.moduleBlobUrl <;> simp [hm, revokeObjectURL]

theorem onRenderWidget_ok_fresh (env : RenderEnv) (load : String → LoadResult)
    (id s : String) (st : CanvasState) (d : String)
    (h : st.widgets.lookup id = none)
    (hld : load (moduleSource env s st.reg.blobs.length) = .ok d) :
    onRenderWidget env load id (.ok s) st =
      { st with
        widgets := st.widgets ++
          [(id, ⟨.defaultExport d, st.reg.blobs.length,
                 some (st.reg.blobs.length + 1)⟩)],
        reg := { st.reg with blobs := st.reg.blobs ++
            [apisSource env id, moduleSource env s st.reg.blobs.length] } } := by
  unfold onRenderWidget
  rw [h]
  simp [createObjectURL, setEntry, h, hld]

theorem onRenderWidget_ok_fresh_loadfail (env : RenderEnv) (load : String → LoadResult)
    (id s : String) (st : CanvasState) (e : String)
    (h : st.widgets.lookup id = none)
    (hld : load (moduleSource env s st.reg.blobs.length) = .err e) :
    onRenderWidget env load id (.ok s) st =
      { st with
        widgets := st.widgets ++
          [(id, ⟨.errorDisplay id "Error importing the widget module"
                   (stringifyError e), st.reg.blobs.length, none⟩)],
        reg := ⟨st.reg.blobs ++
            [apisSource env id, moduleSource env s st.reg.blobs.length],
          st.reg.revoked ++ [st.reg.blobs.length + 1]⟩ } := by
  unfold onRenderWidget
  rw [h]
  simp [createObjectURL, setEntry, h, hld, revokeObjectURL]

theorem onRenderWidget_ok_existing (env : RenderEnv) (load : String → LoadResult)
    (id s : String) (st : CanvasState) (w0 : WidgetState) (d : String)
    (h : st.widgets.lookup id = some w0)
    (hld : load (moduleSource env s w0.apisBlobUrl) = .ok d) :
    onRenderWidget env load id (.ok s) st =
      { st with
        widgets := setEntry st.widgets id
          ⟨.defaultExport d, w0.apisBlobUrl, some st.reg.blobs.length⟩,
        reg := ⟨st.reg.blobs ++ [moduleSource env s w0.apisBlobUrl],
          st.reg.revoked ++ w0.moduleBlobUrl.toList⟩ } := by
  unfold onRenderWidget
  rw [h]
  cases hm : w0.moduleBlobUrl <;>
    simp [hm, revokeObjectURL, createObjectURL, setEntry, hld]

theorem onRenderWidget_ok_existing_loadfail (env : RenderEnv)
    (load : String → LoadResult) (id s : String) (st : CanvasState)
    (w0 : WidgetState) (e : String)
    (h : st.widgets.lookup id = some w0)
    (hld : load (moduleSource env s w0.apisBlobUrl) = .err e) :
    onRenderWidget env load id (.ok s) st =
      { st with
        widgets := setEntry st.widgets id
          ⟨.errorDisplay id "Error importing the widget module"
             (stringifyError e), w0.apisBlobUrl, none⟩,
        reg := ⟨st.reg.blobs ++ [moduleSource env s w0.apisBlobUrl],
          st.reg.revoked ++ w0.moduleBlobUrl.toList ++ [st.reg.blobs.length]⟩ } := by
  unfold onRenderWidget
  rw [h]
  cases hm : w0.moduleBlobUrl <;>
    simp [hm, revokeObjectURL, createObjectURL, setEntry, hld]

/-! ### Theorems about the geometry engine -/

/-- Claim C3: for every input geometry, resize direction and delta,
computeResizedGeometry adds the delta to width and height, subtracts the
height delta from y exactly for the directions that include the top edge,
subtracts the width delta from x exactly for the directions that include the
left edge, and on the concrete example from the spec maps
x 10, y 10, width 100, height 50 under topLeft with delta 20, 5 to
x -10, y 5, width 120, height 55. -/
theorem computeResizedGeometry_spec (g : WidgetGeometry) (dir : ResizeDirection)
    (d : NumberSize) :
    computeResizedGeometry g dir d =
      { x := if dir.includesLeft then g.x - d.width else g.x,
        y := if dir.includesTop then g.y - d.height else g.y,
        width := g.width + d.width,
        height := g.height + d.height } ∧
    computeResizedGeometry ⟨10, 10, 100, 50⟩ .topLeft ⟨20, 5⟩ = ⟨-10, 5, 120, 55⟩ := by
  refine ⟨?_, by decide⟩
  cases dir <;> rfl

/-- Claim C4: the edges opposite the drag direction keep their absolute screen
coordinate: directions including the top edge preserve y plus height,
directions including the left edge preserve x plus width, and the directions
bottom and right leave both x and y unchanged. -/
theorem computeResizedGeometry_anchors (g : WidgetGeometry) (dir : ResizeDirection)
    (d : NumberSize) :
    (dir.includesTop = true →
      (computeResizedGeometry g dir d).y + (computeResizedGeometry g dir d).height =
        g.y + g.height) ∧
    (dir.includesLeft = true →
      (computeResizedGeometry g dir d).x + (computeResizedGeometry g dir d).width =
        g.x + g.width) ∧
    (dir = .bottom ∨ dir = .right →
      (computeResizedGeometry g dir d).x = g.x ∧
      (computeResizedGeometry g dir d).y = g.y) := by
  refine ⟨?_, ?_, ?_⟩ <;> intro h
  · cases dir <;>
      simp_all [ResizeDirection.includesTop, computeResizedGeometry]
  · cases dir <;>
      simp_all [ResizeDirection.includesLeft, computeResizedGeometry]
  · rcases h with h | h <;> subst h <;> exact ⟨rfl, rfl⟩

/-- Witness for claim C4 at concrete inputs: a topLeft resize of the box at
1, 2 with size 3, 4 by delta 5, 6 keeps the bottom and right edges, and a
bottom resize keeps x and y. -/
theorem computeResizedGeometry_anchors_witness :
    ((computeResizedGeometry ⟨1, 2, 3, 4⟩ .topLeft ⟨5, 6⟩).y +
      (computeResizedGeometry ⟨1, 2, 3, 4⟩ .topLeft ⟨5, 6⟩).height = 2 + 4) ∧
    ((computeResizedGeometry ⟨1, 2, 3, 4⟩ .topLeft ⟨5, 6⟩).x +
      (computeResizedGeometry ⟨1, 2, 3, 4⟩ .topLeft ⟨5, 6⟩).width = 1 + 3) ∧
    ((computeResizedGeometry ⟨1, 2, 3, 4⟩ .bottom ⟨5, 6⟩).x = 1 ∧
      (computeResizedGeometry ⟨1, 2, 3, 4⟩ .bottom ⟨5, 6⟩).y = 2) :=
  ⟨(computeResizedGeometry_anchors ⟨1, 2, 3, 4⟩ .topLeft ⟨5, 6⟩).1 (by decide),
   (computeResizedGeometry_anchors ⟨1, 2, 3, 4⟩ .topLeft ⟨5, 6⟩).2.1 (by decide),
   (computeResizedGeometry_anchors ⟨1, 2, 3, 4⟩ .bottom ⟨5, 6⟩).2.2 (Or.inl rfl)⟩

/-- Claim C5: a bottomRight resize by delta d followed by a bottomRight resize
by the negated delta restores the original geometry exactly. -/
theorem computeResizedGeometry_bottomRight_inverse (g : WidgetGeometry) (d : NumberSize) :
    computeResizedGeometry (computeResizedGeometry g .bottomRight d) .bottomRight
      ⟨-d.width, -d.height⟩ = g := by
  cases g
  simp only [computeResizedGeometry]
  congr 1 <;> ring

/-! ### Theorems about the WidgetContainer render precondition -/

/-- Claim C8, counterexample: the packaged WidgetContainer.tsx revision (one of
the two cited sources) renders the widget body for a settings entry whose
isLoaded flag is false, contradicting the claim that the body renders only
when isLoaded is true. -/
theorem widgetContainerPkg_renders_unloaded :
    ¬ (widgetContainerRendersPkg
        (some { x := 0, y := 0, width := 100, height := 50, opacity := 100,
                zIndex := 0, isLoaded := false })
        (some ⟨0, 0, 100, 50⟩) = true →
       ({ x := 0, y := 0, width := 100, height := 50, opacity := 100,
          zIndex := 0, isLoaded := false } : WidgetSettings).isLoaded = true) := by
  decide

/-- Claim C8, amended: the part_010 WidgetContainer renders the widget body
exactly when a settings entry exists, the local geometry state exists, and the
isLoaded flag is true (so with no settings entry or isLoaded false it renders
nothing); the packaged WidgetContainer.tsx revision renders exactly when a
settings entry and the geometry state exist, regardless of isLoaded. -/
theorem widgetContainer_renders_iff (s : Option WidgetSettings)
    (g : Option WidgetGeometry) :
    (widgetContainerRenders s g = true ↔
      ∃ ws gw, s = some ws ∧ g = some gw ∧ ws.isLoaded = true) ∧
    (widgetContainerRendersPkg s g = true ↔ s.isSome ∧ g.isSome) := by
  constructor
  · cases s <;> cases g <;> simp [widgetContainerRenders]
  · cases s <;> cases g <;> simp [widgetContainerRendersPkg]

/-! ### Catalog reconciliation claims -/

/-- Claim C1, counterexample: from an empty widgets store, a catalog update
whose payload holds the ID A leaves the store empty, so the set of tracked IDs
after reconciliation is not the ID set of the most recent catalog. -/
theorem catalog_reconciliation_counterexample :
    (onCatalogUpdate ["A"]
        ⟨[], ⟨[], []⟩, ⟨.light, .auto, [], []⟩⟩).widgets.map Prod.fst ≠ ["A"] ∧
    "A" ∈ ["A"] := by
  decide

/-- Claim C1, amended: for every sequence of catalog-update events from a
well-formed state, after each reconciliation the widgets store holds exactly
the previously tracked entries whose IDs appear in every catalog of the
sequence (an intersection with the catalogs, not the full catalog ID set: the
listener never adds entries), and every handle of every removed entry (the
API-shim handle, and the code-module handle when one is present) is revoked
exactly once, while the handles of surviving entries are never revoked. -/
theorem catalog_reconciliation_amended (ps : List (List String)) (st : CanvasState)
    (hwf : WF st) :
    (runCatalogEvents ps st).widgets =
      (st.widgets.filter fun e => ps.all fun q => q.contains e.1) ∧
    ∀ id w, (id, w) ∈ st.widgets → ∀ u ∈ handlesOf w,
      (runCatalogEvents ps st).reg.revoked.count u =
        if ps.all (fun q => q.contains id) then 0 else 1 := by
  refine ⟨runCatalogEvents_widgets ps st, ?_⟩
  intro id w hm u hu
  have h := runCatalogEvents_count_tracked ps st hwf id w hm u hu
  have h0 : st.reg.revoked.count u = 0 :=
    hwf.2.2.1 u (mem_storeHandles_of_mem hm hu)
  rw [h, h0]
  omega

/-- Witness for the amended claim C1: a store tracking one widget with an
API-shim handle and a code-module handle, hit by one catalog event that drops
it, revokes each of the two handles exactly once and empties the store. -/
theorem catalog_reconciliation_amended_witness :
    (runCatalogEvents [[]]
        ⟨[("A", ⟨.errorDisplay "A" "e" "m", 0, some 1⟩)], ⟨["x", "y"], []⟩,
         ⟨.light, .auto, [], []⟩⟩).widgets = [] ∧
    (runCatalogEvents [[]]
        ⟨[("A", ⟨.errorDisplay "A" "e" "m", 0, some 1⟩)], ⟨["x", "y"], []⟩,
         ⟨.light, .auto, [], []⟩⟩).reg.revoked.count 0 = 1 ∧
    (runCatalogEvents [[]]
        ⟨[("A", ⟨.errorDisplay "A" "e" "m", 0, some 1⟩)], ⟨["x", "y"], []⟩,
         ⟨.light, .auto, [], []⟩⟩).reg.revoked.count 1 = 1 := by
  have h := catalog_reconciliation_amended [[]]
    ⟨[("A", ⟨.errorDisplay "A" "e" "m", 0, some 1⟩)], ⟨["x", "y"], []⟩,
     ⟨.light, .auto, [], []⟩⟩ (by decide)
  refine ⟨by simpa using h.1, ?_, ?_⟩
  · have h2 := h.2 "A" ⟨.errorDisplay "A" "e" "m", 0, some 1⟩ (by decide) 0 (by decide)
    simpa using h2
  · have h2 := h.2 "A" ⟨.errorDisplay "A" "e" "m", 0, some 1⟩ (by decide) 1 (by decide)
    simpa using h2

/-- Claim C10: when every tracked widget ID appears in the incoming catalog
payload, the catalog-update handler leaves the whole state identical, performs
no store write, and creates no entries for IDs that are new in the catalog. -/
theorem catalogUpdate_no_removals_noop (q : List String) (st : CanvasState)
    (h : ∀ e ∈ st.widgets, q.contains e.1 = true) :
    onCatalogUpdate q st = st ∧ catalogUpdateWrites q st = false ∧
    ∀ id, st.widgets.lookup id = none →
      (onCatalogUpdate q st).widgets.lookup id = none := by
  have hfk : st.widgets.filter (fun e => q.contains e.1) = st.widgets :=
    List.filter_eq_self.mpr h
  have hfn : st.widgets.filter (fun e => !q.contains e.1) = [] := by
    rw [List.filter_eq_nil_iff]
    intro e he
    simpa using h e he
  have heq : onCatalogUpdate q st = st := by
    rw [onCatalogUpdate_spec, hfk, hfn]
    simp only [storeHandles, List.append_nil]
  refine ⟨heq, ?_, fun id hid => by rw [heq]; exact hid⟩
  unfold catalogUpdateWrites
  rw [cleanupWidgets_spec]
  dsimp only
  rw [hfk]
  simp

/-- Witness for claim C10: a store tracking one widget whose ID is in the
catalog payload is left untouched, with no store write and no entry for the
new catalog ID. -/
theorem catalogUpdate_no_removals_noop_witness :
    onCatalogUpdate ["A", "B"]
        ⟨[("A", ⟨.errorDisplay "A" "x" "y", 0, none⟩)], ⟨["c"], []⟩,
         ⟨.light, .auto, [], []⟩⟩ =
      ⟨[("A", ⟨.errorDisplay "A" "x" "y", 0, none⟩)], ⟨["c"], []⟩,
       ⟨.light, .auto, [], []⟩⟩ ∧
    catalogUpdateWrites ["A", "B"]
        ⟨[("A", ⟨.errorDisplay "A" "x" "y", 0, none⟩)], ⟨["c"], []⟩,
         ⟨.light, .auto, [], []⟩⟩ = false ∧
    ∀ id,
      (⟨[("A", ⟨.errorDisplay "A" "x" "y", 0, none⟩)], ⟨["c"], []⟩,
        ⟨.light, .auto, [], []⟩⟩ : CanvasState).widgets.lookup id = none →
      (onCatalogUpdate ["A", "B"]
          ⟨[("A", ⟨.errorDisplay "A" "x" "y", 0, none⟩)], ⟨["c"], []⟩,
           ⟨.light, .auto, [], []⟩⟩).widgets.lookup id = none :=
  catalogUpdate_no_removals_noop ["A", "B"] _ (by decide)

/-- Claim C9: a settings-update event replaces the settings store value
wholesale with the event payload, with no field-level merge against the old
value, and leaves the widgets store and the blob URL registry (hence every
API-shim and code-module handle) unchanged. -/
theorem settingsUpdate_wholesale (p : Settings) (st : CanvasState) :
    (onUpdateSettings p st).settings = p ∧
    (onUpdateSettings p st).widgets = st.widgets ∧
    (onUpdateSettings p st).reg = st.reg :=
  ⟨rfl, rfl, rfl⟩

/-! ### Render report claims -/

/-- Claim C7: an error render report followed by a successful one for the same
ID leaves the widget Rendered holding the default export, with exactly one
live code-module handle (the module blob allocated by the second report) and
the API-shim handle created during the first report reused unchanged: the
blob list grows by exactly one API-shim source and one module source, so the
shim is not recreated, and nothing is revoked. -/
theorem renderWidget_err_then_ok (env : RenderEnv) (load : String → LoadResult)
    (id msg s : String) (st : CanvasState) (d : String)
    (hfresh : st.widgets.lookup id = none)
    (hrev : ∀ u ∈ st.reg.revoked, u < st.reg.blobs.length)
    (hld : load (moduleSource env s st.reg.blobs.length) = .ok d) :
    (onRenderWidget env load id (.err msg) st).widgets.lookup id =
      some ⟨.errorDisplay id "Error bundling the widget" msg,
            st.reg.blobs.length, none⟩ ∧
    (onRenderWidget env load id (.ok s)
        (onRenderWidget env load id (.err msg) st)).widgets.lookup id =
      some ⟨.defaultExport d, st.reg.blobs.length,
            some (st.reg.blobs.length + 1)⟩ ∧
    (onRenderWidget env load id (.ok s)
        (onRenderWidget env load id (.err msg) st)).reg.blobs =
      st.reg.blobs ++ [apisSource env id, moduleSource env s st.reg.blobs.length] ∧
    (onRenderWidget env load id (.ok s)
        (onRenderWidget env load id (.err msg) st)).reg.revoked =
      st.reg.revoked ∧
    (onRenderWidget env load id (.ok s)
        (onRenderWidget env load id (.err msg) st)).reg.isLive
      (st.reg.blobs.length + 1) ∧
    (onRenderWidget env load id (.ok s)
        (onRenderWidget env load id (.err msg) st)).reg.isLive
      st.reg.blobs.length := by
  have e1 := onRenderWidget_errcode_fresh env load id msg st hfresh
  rw [e1]
  have hlook1 :
      (st.widgets ++
        [(id, (⟨.errorDisplay id "Error bundling the widget" msg,
                st.reg.blobs.length, none⟩ : WidgetState))]).lookup id =
      some ⟨.errorDisplay id "Error bundling the widget" msg,
            st.reg.blobs.length, none⟩ :=
    lookup_append_of_none hfresh
  have e2 := onRenderWidget_ok_existing env load id s
    { st with
      widgets := st.widgets ++
        [(id, ⟨.errorDisplay id "Error bundling the widget" msg,
               st.reg.blobs.length, none⟩)],
      reg := { st.reg with blobs := st.reg.blobs ++ [apisSource env id] } }
    ⟨.errorDisplay id "Error bundling the widget" msg, st.reg.blobs.length, none⟩
    d hlook1 hld
  rw [e2]
  refine ⟨hlook1, ?_, ?_, ?_, ?_, ?_⟩
  · have := lookup_setEntry_self
      (st.widgets ++
        [(id, (⟨.errorDisplay id "Error bundling the widget" msg,
                st.reg.blobs.length, none⟩ : WidgetState))]) id
      ⟨.defaultExport d, st.reg.blobs.length, some (st.reg.blobs.length + 1)⟩
    simpa using this
  · simp
  · simp
  · constructor
    · simp
    · simp only []
      refine List.count_eq_zero.mpr fun hmem => ?_
      have := hrev _ (by simpa using hmem)
      omega
  · constructor
    · simp
    · simp only []
      refine List.count_eq_zero.mpr fun hmem => ?_
      have := hrev _ (by simpa using hmem)
      omega

/-- Witness for claim C7: from the empty state, a bundling-error report for
widget A followed by a successful report leaves the default export stored with
the reused API-shim handle 0 and the live module handle 1. -/
theorem renderWidget_err_then_ok_witness :
    (onRenderWidget ⟨"W", "B", "R"⟩ (fun _ => .ok "D") "A" (.err "oops")
        ⟨[], ⟨[], []⟩, ⟨.light, .auto, [], []⟩⟩).widgets.lookup "A" =
      some ⟨.errorDisplay "A" "Error bundling the widget" "oops", 0, none⟩ ∧
    (onRenderWidget ⟨"W", "B", "R"⟩ (fun _ => .ok "D") "A" (.ok "src")
        (onRenderWidget ⟨"W", "B", "R"⟩ (fun _ => .ok "D") "A" (.err "oops")
          ⟨[], ⟨[], []⟩, ⟨.light, .auto, [], []⟩⟩)).widgets.lookup "A" =
      some ⟨.defaultExport "D", 0, some 1⟩ ∧
    (onRenderWidget ⟨"W", "B", "R"⟩ (fun _ => .ok "D") "A" (.ok "src")
        (onRenderWidget ⟨"W", "B", "R"⟩ (fun _ => .ok "D") "A" (.err "oops")
          ⟨[], ⟨[], []⟩, ⟨.light, .auto, [], []⟩⟩)).reg.blobs =
      [] ++ [apisSource ⟨"W", "B", "R"⟩ "A", moduleSource ⟨"W", "B", "R"⟩ "src" 0] ∧
    (onRenderWidget ⟨"W", "B", "R"⟩ (fun _ => .ok "D") "A" (.ok "src")
        (onRenderWidget ⟨"W", "B", "R"⟩ (fun _ => .ok "D") "A" (.err "oops")
          ⟨[], ⟨[], []⟩, ⟨.light, .auto, [], []⟩⟩)).reg.revoked = [] ∧
    (onRenderWidget ⟨"W", "B", "R"⟩ (fun _ => .ok "D") "A" (.ok "src")
        (onRenderWidget ⟨"W", "B", "R"⟩ (fun _ => .ok "D") "A" (.err "oops")
          ⟨[], ⟨[], []⟩, ⟨.light, .auto, [], []⟩⟩)).reg.isLive 1 ∧
    (onRenderWidget ⟨"W", "B", "R"⟩ (fun _ => .ok "D") "A" (.ok "src")
        (onRenderWidget ⟨"W", "B", "R"⟩ (fun _ => .ok "D") "A" (.err "oops")
          ⟨[], ⟨[], []⟩, ⟨.light, .auto, [], []⟩⟩)).reg.isLive 0 :=
  renderWidget_err_then_ok ⟨"W", "B", "R"⟩ (fun _ => .ok "D") "A" "oops" "src"
    ⟨[], ⟨[], []⟩, ⟨.light, .auto, [], []⟩⟩ "D" rfl (by simp) rfl

/-- Claim C6: when the asynchronous module load fails (a throw or a missing
default export, both reported by the load oracle), the module blob URL created
for the attempt is revoked exactly once immediately, the widget entry becomes
an import-error ErrorDisplay that retains the API-shim handle (still live),
and no live code-module handle remains for that ID: the stored module handle
is gone and any previously stored module handle is dead as well. -/
theorem renderWidget_import_error (env : RenderEnv) (load : String → LoadResult)
    (id s : String) (st : CanvasState) (hwf : WF st)
    (hfail : ∀ c, ∃ e, load c = .err e) :
    ∃ a m1 e,
      (onRenderWidget env load id (.ok s) st).widgets.lookup id =
        some ⟨.errorDisplay id "Error importing the widget module"
                (stringifyError e), a, none⟩ ∧
      (onRenderWidget env load id (.ok s) st).reg.blobs[m1]? =
        some (moduleSource env s a) ∧
      (onRenderWidget env load id (.ok s) st).reg.revoked.count m1 = 1 ∧
      ¬ (onRenderWidget env load id (.ok s) st).reg.isLive m1 ∧
      (onRenderWidget env load id (.ok s) st).reg.isLive a ∧
      codeHandleOf (onRenderWidget env load id (.ok s) st) id = none ∧
      (∀ w0, st.widgets.lookup id = some w0 →
        a = w0.apisBlobUrl ∧
        ∀ m0, w0.moduleBlobUrl = some m0 →
          ¬ (onRenderWidget env load id (.ok s) st).reg.isLive m0) := by
  obtain ⟨hnd, hal, hun, hra⟩ := hwf
  cases hl : st.widgets.lookup id with
  | none =>
    obtain ⟨e, hld⟩ := hfail (moduleSource env s st.reg.blobs.length)
    rw [onRenderWidget_ok_fresh_loadfail env load id s st e hl hld]
    refine ⟨st.reg.blobs.length, st.reg.blobs.length + 1, e, ?_, ?_, ?_, ?_, ?_, ?_, ?_⟩
    · exact lookup_append_of_none hl
    · rw [List.getElem?_append_right (by omega)]
      simp
    · simp only [List.count_append]
      have h0 : st.reg.revoked.count (st.reg.blobs.length + 1) = 0 :=
        List.count_eq_zero.mpr fun hmem => by have := hra _ hmem; omega
      simp [h0]
    · intro hlive
      have := hlive.2
      simp only [List.count_append] at this
      simp at this
    · constructor
      · simp
      · simp only []
        refine List.count_eq_zero.mpr fun hmem => ?_
        rcases List.mem_append.mp hmem with h | h
        · have := hra _ h; omega
        · simp at h
    · unfold codeHandleOf
      dsimp only
      rw [lookup_append_of_none hl]
      rfl
    · intro w0 hw0
      simp at hw0
  | some w0 =>
    obtain ⟨e, hld⟩ := hfail (moduleSource env s w0.apisBlobUrl)
    rw [onRenderWidget_ok_existing_loadfail env load id s st w0 e hl hld]
    have hmem0 : (id, w0) ∈ st.widgets := mem_of_lookup_some hl
    have haH : w0.apisBlobUrl ∈ handlesOf w0 := by simp [handlesOf]
    have haS : w0.apisBlobUrl ∈ storeHandles st.widgets :=
      mem_storeHandles_of_mem hmem0 haH
    have haL : w0.apisBlobUrl < st.reg.blobs.length := hal _ haS
    have haR : st.reg.revoked.count w0.apisBlobUrl = 0 := hun _ haS
    have hndw : (handlesOf w0).Nodup := nodup_handles_of_mem hnd hmem0
    refine ⟨w0.apisBlobUrl, st.reg.blobs.length, e, ?_, ?_, ?_, ?_, ?_, ?_, ?_⟩
    · exact lookup_setEntry_self _ _ _
    · rw [List.getElem?_append_right (by omega)]
      simp
    · simp only [List.count_append]
      have h0 : st.reg.revoked.count st.reg.blobs.length = 0 :=
        List.count_eq_zero.mpr fun hmem => by have := hra _ hmem; omega
      have h1 : (w0.moduleBlobUrl.toList).count st.reg.blobs.length = 0 := by
        cases hm0 : w0.moduleBlobUrl with
        | none => simp
        | some m0 =>
          have hm0S : m0 ∈ storeHandles st.widgets :=
            mem_storeHandles_of_mem hmem0 (by simp [handlesOf, hm0])
          have hlt := hal _ hm0S
          refine List.count_eq_zero.mpr ?_
          simp only [Option.toList_some, List.mem_singleton]
          omega
      simp [h0, h1]
    · intro hlive
      have := hlive.2
      simp only [List.count_append] at this
      simp at this
    · constructor
      · simp
        omega
      · simp only []
        refine List.count_eq_zero.mpr fun hmem => ?_
        rcases List.mem_append.mp hmem with h | h
        · rcases List.mem_append.mp h with h | h
          · exact absurd (List.count_pos_iff.mpr h) (by omega)
          · have hnotin : w0.apisBlobUrl ∉ w0.moduleBlobUrl.toList := by
              have := (List.nodup_cons.mp (by
                have h2 := hndw
                rw [handlesOf] at h2
                exact h2)).1
              exact this
            exact hnotin h
        · simp at h
          omega
    · unfold codeHandleOf
      dsimp only
      rw [lookup_setEntry_self]
      rfl
    · intro w0a hw0a
      obtain rfl : w0 = w0a := Option.some_injective _ hw0a
      refine ⟨rfl, fun m0 hm0 => ?_⟩
      intro hlive
      have := hlive.2
      simp only [List.count_append] at this
      have hm0S : m0 ∈ storeHandles st.widgets :=
        mem_storeHandles_of_mem hmem0 (by simp [handlesOf, hm0])
      have h0 : st.reg.revoked.count m0 = 0 := hun _ hm0S
      rw [hm0] at this
      simp [h0] at this

/-- Witness for claim C6: from the empty state, a source render report for
widget A under a load oracle that always fails leaves an import-error entry,
a revoked module handle and a live API-shim handle. -/
theorem renderWidget_import_error_witness :
    ∃ a m1 e,
      (onRenderWidget ⟨"W", "B", "R"⟩ (fun _ => .err "E") "A" (.ok "src")
          ⟨[], ⟨[], []⟩, ⟨.light, .auto, [], []⟩⟩).widgets.lookup "A" =
        some ⟨.errorDisplay "A" "Error importing the widget module"
                (stringifyError e), a, none⟩ ∧
      (onRenderWidget ⟨"W", "B", "R"⟩ (fun _ => .err "E") "A" (.ok "src")
          ⟨[], ⟨[], []⟩, ⟨.light, .auto, [], []⟩⟩).reg.blobs[m1]? =
        some (moduleSource ⟨"W", "B", "R"⟩ "src" a) ∧
      (onRenderWidget ⟨"W", "B", "R"⟩ (fun _ => .err "E") "A" (.ok "src")
          ⟨[], ⟨[], []⟩, ⟨.light, .auto, [], []⟩⟩).reg.revoked.count m1 = 1 ∧
      ¬ (onRenderWidget ⟨"W", "B", "R"⟩ (fun _ => .err "E") "A" (.ok "src")
          ⟨[], ⟨[], []⟩, ⟨.light, .auto, [], []⟩⟩).reg.isLive m1 ∧
      (onRenderWidget ⟨"W", "B", "R"⟩ (fun _ => .err "E") "A" (.ok "src")
          ⟨[], ⟨[], []⟩, ⟨.light, .auto, [], []⟩⟩).reg.isLive a ∧
      codeHandleOf (onRenderWidget ⟨"W", "B", "R"⟩ (fun _ => .err "E") "A"
        (.ok "src") ⟨[], ⟨[], []⟩, ⟨.light, .auto, [], []⟩⟩) "A" = none ∧
      (∀ w0,
        (⟨[], ⟨[], []⟩, ⟨.light, .auto, [], []⟩⟩ :
          CanvasState).widgets.lookup "A" = some w0 →
        a = w0.apisBlobUrl ∧
        ∀ m0, w0.moduleBlobUrl = some m0 →
          ¬ (onRenderWidget ⟨"W", "B", "R"⟩ (fun _ => .err "E") "A" (.ok "src")
              ⟨[], ⟨[], []⟩, ⟨.light, .auto, [], []⟩⟩).reg.isLive m0) :=
  renderWidget_import_error ⟨"W", "B", "R"⟩ (fun _ => .err "E") "A" "src"
    ⟨[], ⟨[], []⟩, ⟨.light, .auto, [], []⟩⟩ (by decide) (fun _ => ⟨"E", rfl⟩)

/-- Claim C2: two successful render reports with sources s1 then s2 for the
same ID, from any well-formed state with a load oracle that succeeds, leave in
the store exactly one code-module handle m2, whose blob carries the
substituted s2, live; the handle m1 allocated from s1 by the first report has
been revoked exactly once and is dead.  The theorem holds for all s1 and s2,
including equal sources, so rotation never compares old and new content, and
the API-shim handle a is shared by both entries. -/
theorem renderWidget_rotation (env : RenderEnv) (load : String → LoadResult)
    (id s1 s2 : String) (st : CanvasState) (hwf : WF st)
    (hok : ∀ c, ∃ d, load c = .ok d) :
    ∃ a m1 m2 d1 d2,
      (onRenderWidget env load id (.ok s1) st).widgets.lookup id =
        some ⟨.defaultExport d1, a, some m1⟩ ∧
      (onRenderWidget env load id (.ok s2)
          (onRenderWidget env load id (.ok s1) st)).widgets.lookup id =
        some ⟨.defaultExport d2, a, some m2⟩ ∧
      (onRenderWidget env load id (.ok s2)
          (onRenderWidget env load id (.ok s1) st)).reg.blobs[m1]? =
        some (moduleSource env s1 a) ∧
      (onRenderWidget env load id (.ok s2)
          (onRenderWidget env load id (.ok s1) st)).reg.blobs[m2]? =
        some (moduleSource env s2 a) ∧
      m1 < m2 ∧
      (onRenderWidget env load id (.ok s2)
          (onRenderWidget env load id (.ok s1) st)).reg.isLive m2 ∧
      ¬ (onRenderWidget env load id (.ok s2)
          (onRenderWidget env load id (.ok s1) st)).reg.isLive m1 ∧
      (onRenderWidget env load id (.ok s2)
          (onRenderWidget env load id (.ok s1) st)).reg.revoked.count m1 = 1 := by
  obtain ⟨hnd, hal, hun, hra⟩ := hwf
  cases hl : st.widgets.lookup id with
  | none =>
    obtain ⟨d1, h1⟩ := hok (moduleSource env s1 st.reg.blobs.length)
    have e1 := onRenderWidget_ok_fresh env load id s1 st d1 hl h1
    rw [e1]
    have hlook1 :
        (st.widgets ++
          [(id, (⟨.defaultExport d1, st.reg.blobs.length,
                  some (st.reg.blobs.length + 1)⟩ : WidgetState))]).lookup id =
        some ⟨.defaultExport d1, st.reg.blobs.length,
              some (st.reg.blobs.length + 1)⟩ :=
      lookup_append_of_none hl
    obtain ⟨d2, h2⟩ := hok (moduleSource env s2 st.reg.blobs.length)
    have e2 := onRenderWidget_ok_existing env load id s2
      { st with
        widgets := st.widgets ++
          [(id, ⟨.defaultExport d1, st.reg.blobs.length,
                 some (st.reg.blobs.length + 1)⟩)],
        reg := { st.reg with blobs := st.reg.blobs ++
            [apisSource env id, moduleSource env s1 st.reg.blobs.length] } }
      ⟨.defaultExport d1, st.reg.blobs.length, some (st.reg.blobs.length + 1)⟩
      d2 hlook1 h2
    rw [e2]
    refine ⟨st.reg.blobs.length, st.reg.blobs.length + 1, st.reg.blobs.length + 2,
      d1, d2, hlook1, ?_, ?_, ?_, by omega, ?_, ?_, ?_⟩
    · have := lookup_setEntry_self
        (st.widgets ++
          [(id, (⟨.defaultExport d1, st.reg.blobs.length,
                  some (st.reg.blobs.length + 1)⟩ : WidgetState))]) id
        ⟨.defaultExport d2, st.reg.blobs.length, some (st.reg.blobs.length + 2)⟩
      simpa using this
    · show (st.reg.blobs ++ _ ++ _)[st.reg.blobs.length + 1]? = _
      rw [List.append_assoc, List.getElem?_append_right (by omega)]
      simp
    · show (st.reg.blobs ++ _ ++ _)[st.reg.blobs.length + 2]? = _
      rw [List.append_assoc, List.getElem?_append_right (by omega)]
      simp
    · constructor
      · simp
      · simp only []
        refine List.count_eq_zero.mpr fun hmem => ?_
        rcases List.mem_append.mp hmem with h | h
        · have := hra _ h; omega
        · simp at h
    · intro hlive
      have h2l := hlive.2
      simp only [List.count_append] at h2l
      simp at h2l
    · simp only [List.count_append]
      have h0 : st.reg.revoked.count (st.reg.blobs.length + 1) = 0 :=
        List.count_eq_zero.mpr fun hmem => by have := hra _ hmem; omega
      simp [h0]
  | some w0 =>
    obtain ⟨d1, h1⟩ := hok (moduleSource env s1 w0.apisBlobUrl)
    have e1 := onRenderWidget_ok_existing env load id s1 st w0 d1 hl h1
    rw [e1]
    have hmem0 : (id, w0) ∈ st.widgets := mem_of_lookup_some hl
    have haS : w0.apisBlobUrl ∈ storeHandles st.widgets :=
      mem_storeHandles_of_mem hmem0 (by simp [handlesOf])
    have haL : w0.apisBlobUrl < st.reg.blobs.length := hal _ haS
    have hlook1 :
        (setEntry st.widgets id
          ⟨.defaultExport d1, w0.apisBlobUrl, some st.reg.blobs.length⟩).lookup id =
        some ⟨.defaultExport d1, w0.apisBlobUrl, some st.reg.blobs.length⟩ :=
      lookup_setEntry_self _ _ _
    obtain ⟨d2, h2⟩ := hok (moduleSource env s2 w0.apisBlobUrl)
    have e2 := onRenderWidget_ok_existing env load id s2
      { st with
        widgets := setEntry st.widgets id
          ⟨.defaultExport d1, w0.apisBlobUrl, some st.reg.blobs.length⟩,
        reg := ⟨st.reg.blobs ++ [moduleSource env s1 w0.apisBlobUrl],
          st.reg.revoked ++ w0.moduleBlobUrl.toList⟩ }
      ⟨.defaultExport d1, w0.apisBlobUrl, some st.reg.blobs.length⟩
      d2 hlook1 h2
    rw [e2]
    have hm0count : ∀ k, st.reg.blobs.length ≤ k →
        (w0.moduleBlobUrl.toList).count k = 0 := by
      intro k hk
      cases hm0 : w0.moduleBlobUrl with
      | none => simp
      | some m0 =>
        have hm0S : m0 ∈ storeHandles st.widgets :=
          mem_storeHandles_of_mem hmem0 (by simp [handlesOf, hm0])
        have := hal _ hm0S
        refine List.count_eq_zero.mpr ?_
        simp only [Option.toList_some, List.mem_singleton]
        omega
    refine ⟨w0.apisBlobUrl, st.reg.blobs.length, st.reg.blobs.length + 1,
      d1, d2, hlook1, ?_, ?_, ?_, by omega, ?_, ?_, ?_⟩
    · have := lookup_setEntry_self
        (setEntry st.widgets id
          ⟨.defaultExport d1, w0.apisBlobUrl, some st.reg.blobs.length⟩) id
        ⟨.defaultExport d2, w0.apisBlobUrl, some (st.reg.blobs.length + 1)⟩
      simpa using this
    · show (st.reg.blobs ++ _ ++ _)[st.reg.blobs.length]? = _
      rw [List.append_assoc, List.getElem?_append_right (by omega)]
      simp
    · show (st.reg.blobs ++ _ ++ _)[st.reg.blobs.length + 1]? = _
      rw [List.append_assoc, List.getElem?_append_right (by omega)]
      simp
    · constructor
      · simp
      · simp only []
        refine List.count_eq_zero.mpr fun hmem => ?_
        rcases List.mem_append.mp hmem with h | h
        · rcases List.mem_append.mp h with h | h
          · have := hra _ h; omega
          · have := List.count_pos_iff.mpr h
            have := hm0count (st.reg.blobs.length + 1) (by omega)
            omega
        · simp at h
    · intro hlive
      have h2l := hlive.2
      simp only [List.count_append] at h2l
      simp at h2l
    · simp only [List.count_append]
      have h0 : st.reg.revoked.count st.reg.blobs.length = 0 :=
        List.count_eq_zero.mpr fun hmem => by have := hra _ hmem; omega
      have h1c := hm0count st.reg.blobs.length (by omega)
      simp [h0, h1c]

/-- Witness for claim C2: from the empty state, two successful render reports
for widget A with sources s1 and s2 leave one live module handle for s2 and a
revoked handle for s1. -/
theorem renderWidget_rotation_witness :
    ∃ a m1 m2 d1 d2,
      (onRenderWidget ⟨"W", "B", "R"⟩ (fun _ => .ok "D") "A" (.ok "s1")
          ⟨[], ⟨[], []⟩, ⟨.light, .auto, [], []⟩⟩).widgets.lookup "A" =
        some ⟨.defaultExport d1, a, some m1⟩ ∧
      (onRenderWidget ⟨"W", "B", "R"⟩ (fun _ => .ok "D") "A" (.ok "s2")
          (onRenderWidget ⟨"W", "B", "R"⟩ (fun _ => .ok "D") "A" (.ok "s1")
            ⟨[], ⟨[], []⟩, ⟨.light, .auto, [], []⟩⟩)).widgets.lookup "A" =
        some ⟨.defaultExport d2, a, some m2⟩ ∧
      (onRenderWidget ⟨"W", "B", "R"⟩ (fun _ => .ok "D") "A" (.ok "s2")
          (onRenderWidget ⟨"W", "B", "R"⟩ (fun _ => .ok "D") "A" (.ok "s1")
            ⟨[], ⟨[], []⟩, ⟨.light, .auto, [], []⟩⟩)).reg.blobs[m1]? =
        some (moduleSource ⟨"W", "B", "R"⟩ "s1" a) ∧
      (onRenderWidget ⟨"W", "B", "R"⟩ (fun _ => .ok "D") "A" (.ok "s2")
          (onRenderWidget ⟨"W", "B", "R"⟩ (fun _ => .ok "D") "A" (.ok "s1")
            ⟨[], ⟨[], []⟩, ⟨.light, .auto, [], []⟩⟩)).reg.blobs[m2]? =
        some (moduleSource ⟨"W", "B", "R"⟩ "s2" a) ∧
      m1 < m2 ∧
      (onRenderWidget ⟨"W", "B", "R"⟩ (fun _ => .ok "D") "A" (.ok "s2")
          (onRenderWidget ⟨"W", "B", "R"⟩ (fun _ => .ok "D") "A" (.ok "s1")
            ⟨[], ⟨[], []⟩, ⟨.light, .auto, [], []⟩⟩)).reg.isLive m2 ∧
      ¬ (onRenderWidget ⟨"W", "B", "R"⟩ (fun _ => .ok "D") "A" (.ok "s2")
          (onRenderWidget ⟨"W", "B", "R"⟩ (fun _ => .ok "D") "A" (.ok "s1")
            ⟨[], ⟨[], []⟩, ⟨.light, .auto, [], []⟩⟩)).reg.isLive m1 ∧
      (onRenderWidget ⟨"W", "B", "R"⟩ (fun _ => .ok "D") "A" (.ok "s2")
          (onRenderWidget ⟨"W", "B", "R"⟩ (fun _ => .ok "D") "A" (.ok "s1")
            ⟨[], ⟨[], []⟩, ⟨.light, .auto, [], []⟩⟩)).reg.revoked.count m1 = 1 :=
  renderWidget_rotation ⟨"W", "B", "R"⟩ (fun _ => .ok "D") "A" "s1" "s2"
    ⟨[], ⟨[], []⟩, ⟨.light, .auto, [], []⟩⟩ (by decide) (fun _ => ⟨"D", rfl⟩)

end Deskulpt
